import Mathlib

/-!
# Verification of the `Metadata` record protocol (`src/metadata.js`)

Shallow embedding of the metadata record module: a wallet stores JSON
documents on a remote server, each write signed over a linkage ("magic")
message binding the new payload to the previous chain hash, and all
operations on one record serialized through a promise queue.

Byte strings and JS strings are modelled as the free algebra generated by
the operations the module applies to them (`Bytes` / `Str0` below): each
constructor denotes the result of one primitive (UTF-8 encoding, SHA-256,
concatenation, AES encryption, base64/hex rendering, ...), and distinct
generic applications denote distinct concrete strings, which is the
standard idealisation of injective codecs and collision-free hashes.
External primitives (bitcoinjs, wallet-crypto, JSON, Buffer) are not part
of `src/`; their models are marked `Modelled from the spec:` in their doc
comments. Everything in the `Metadata` namespace is translated line by
line from `src/metadata.js`.
-/

mutual
/-- JSON-representable document values (the values `create`/`update`/`fetch`
traffic in). Arrays and objects are given by mutually inductive spine types
so that decidable equality and structural recursion are available. -/
inductive JSValue where
  | null : JSValue
  | bool : Bool → JSValue
  | num : Int → JSValue
  | str : String → JSValue
  | arr : JSArr → JSValue
  | obj : JSFields → JSValue
deriving DecidableEq

inductive JSArr where
  | nil : JSArr
  | cons : JSValue → JSArr → JSArr
deriving DecidableEq

inductive JSFields where
  | nil : JSFields
  | cons : String → JSValue → JSFields → JSFields
deriving DecidableEq
end

mutual
/-- Byte buffers (`Buffer`) and JS strings, as the free algebra of the
primitives the module composes.  `Bytes` constructors:
`utf8` = `Buffer.from(string)`; `cat` = `Buffer.concat([a, b])` (left
argument first); `sha` = `WalletCrypto.sha256`; `cipher k s` = the AES
ciphertext bytes of plaintext string `s` under 256-bit key `k` (Modelled
from the spec: `WalletCrypto.encryptDataWithKey`); `magicOf m` = the
network-prefixed message hash `Bitcoin.message.magicHash(m, network)`
(Modelled from the spec: domain-separated hash of the linkage message);
`signed k m` = `Bitcoin.message.sign(k, m)` (Modelled from the spec: an
ECDSA message signature determined by key and message); `junkB64 s` /
`junkHex s` = the bytes `Buffer.from(s, 'base64' / 'hex')` yields on a
string that is not a canonical base64/hex rendering. -/
inductive Bytes where
  | utf8 : Str0 → Bytes
  | cat : Bytes → Bytes → Bytes
  | sha : Bytes → Bytes
  | cipher : Nat → Str0 → Bytes
  | magicOf : Str0 → Bytes
  | signed : Nat → Str0 → Bytes
  | junkB64 : Str0 → Bytes
  | junkHex : Str0 → Bytes
deriving DecidableEq

inductive Str0 where
  | json : JSValue → Str0
  | b64 : Bytes → Str0
  | hex : Bytes → Str0
  | ofBytes : Bytes → Str0
  | raw : String → Str0
deriving DecidableEq
end

/-- Error values rejected/thrown along the module's promise pipelines,
one constructor per distinct error site in `src/metadata.js`. -/
inductive JSError where
  | connectError : JSError
  | serverError : String → JSError
  | signatureVerificationError : JSError
  | typeError : JSError
  | decodeError : JSError
  | fetchFailed : JSError
deriving DecidableEq

/-- The wire shape of a GET response body: the envelope fields
`verifyResponse`/`extractResponse` read, each nullable/omittable. -/
structure ServerResponse where
  payload : Option Str0
  signature : Option Str0
  prev_magic_hash : Option Str0
deriving DecidableEq

/-- An HTTP response as seen by `checkStatus` inside `Metadata.request`:
its status code, the parsed JSON body `response.json()` would yield on a
2xx (`none` when the body is JSON `null`), and the text `response.text()`
would yield otherwise. -/
structure HttpResponse where
  status : Nat
  bodyJson : Option ServerResponse
  bodyText : String
deriving DecidableEq

/-- The PUT request body built by `Metadata.prototype.create` (field names
as on the wire). -/
structure Envelope where
  version : Int
  payload : Str0
  signature : Str0
  prev_magic_hash : Option Str0
  type_id : Int
deriving DecidableEq

/-- A verified GET response: the response `verifyResponse` returns, with
the recomputed linkage hash attached under `compute_new_magic_hash`
(`R.assoc` in the source). -/
structure VerifiedResponse extends ServerResponse where
  compute_new_magic_hash : Bytes
deriving DecidableEq

/-- The mutable fields of one `Metadata` record instance, as set by the
constructor and mutated by `create`/`fetch`.  `value` is `none` while
`this._value` is still `undefined`. -/
structure MetadataState where
  VERSION : Int
  typeId : Int
  magicHash : Option Bytes
  address : Nat
  signKey : Nat
  encKeyBuffer : Option Nat
  value : Option JSValue
deriving DecidableEq

/-- Modelled from the spec: `ecPair.getAddress()` — the deterministic,
collision-free map from a signing key pair to its public address; key
pairs are modelled as naturals and the map as the identity. -/
def getAddress (ecPair : Nat) : Nat := ecPair

/-- Modelled from the spec: `WalletCrypto.encryptDataWithKey(data, key)` —
AES encryption of a plaintext string under a 256-bit key, returning the
ciphertext as a base64 string. -/
def encryptDataWithKey (key : Nat) (data : Str0) : Str0 :=
  Str0.b64 (Bytes.cipher key data)

/-- Modelled from the spec: `WalletCrypto.decryptDataWithKey(data, key)` —
inverse of `encryptDataWithKey`; decryption with a key other than the one
the ciphertext was produced under, or of a string that is not a
ciphertext, throws (`none`). -/
def decryptDataWithKey (key : Nat) (data : Str0) : Option Str0 :=
  match data with
  | Str0.b64 (Bytes.cipher k plain) => if k = key then some plain else none
  | _ => none

/-- Modelled from the spec: `JSON.parse` — yields the value whose
serialization the string is, and throws (`none`) on any string that is
not the JSON serialization of a value. -/
def jsonParse (s : Str0) : Option JSValue :=
  match s with
  | Str0.json v => some v
  | _ => none

namespace Metadata

/-- `Metadata.B64ToBuffer = (base64) => Buffer.from(base64, 'base64')`. -/
def B64ToBuffer : Str0 → Bytes
  | Str0.b64 b => b
  | s => Bytes.junkB64 s

/-- `Metadata.BufferToB64 = (buff) => buff.toString('base64')`. -/
def BufferToB64 (buff : Bytes) : Str0 := Str0.b64 buff

/-- `Metadata.StringToBuffer = (base64) => Buffer.from(base64)` (plain
UTF-8 encoding despite the parameter name). -/
def StringToBuffer (s : Str0) : Bytes := Bytes.utf8 s

/-- `Metadata.BufferToString = (buff) => buff.toString()`. -/
def BufferToString : Bytes → Str0
  | Bytes.utf8 s => s
  | b => Str0.ofBytes b

/-- `Buffer.from(hexString, 'hex')` as used on `prev_magic_hash` in
`verifyResponse`. -/
def HexToBuffer : Str0 → Bytes
  | Str0.hex b => b
  | s => Bytes.junkHex s

/-- `Metadata.encrypt = R.curry((key, data) => WalletCrypto.encryptDataWithKey(data, key))`. -/
def encrypt (key : Nat) (data : Str0) : Str0 := encryptDataWithKey key data

/-- `Metadata.decrypt = R.curry((key, data) => WalletCrypto.decryptDataWithKey(data, key))`. -/
def decrypt (key : Nat) (data : Str0) : Option Str0 := decryptDataWithKey key data

/-- `Metadata.message` (lines 72–82): if a previous magic hash is present,
the base64 rendering of `Buffer.concat([prevMagic, sha256(payload)])` —
the previous hash first, then the hash of the current payload; otherwise
the base64 rendering of the payload itself. -/
def message (payload : Bytes) (prevMagic : Option Bytes) : Str0 :=
  match prevMagic with
  | some pm => Str0.b64 (Bytes.cat pm (Bytes.sha payload))
  | none => Str0.b64 payload

/-- `Metadata.magic` (lines 85–90): the network message-hash of the
linkage message. -/
def magic (payload : Bytes) (prevMagic : Option Bytes) : Bytes :=
  Bytes.magicOf (message payload prevMagic)

/-- `Metadata.verify = (address, signature, hash) => Bitcoin.message.verify(...)`.
Modelled from the spec: verification succeeds exactly on a signature
produced by the key pair of `address` over exactly that message; a buffer
that is not a signature fails. -/
def verify (address : Nat) (signature : Bytes) (msg : Str0) : Bool :=
  match signature with
  | Bytes.signed k m => decide (getAddress k = address ∧ m = msg)
  | _ => false

/-- `Metadata.sign = (keyPair, msg) => Bitcoin.message.sign(keyPair, msg, ...)`. -/
def sign (keyPair : Nat) (msg : Str0) : Bytes := Bytes.signed keyPair msg

/-- `Metadata.computeSignature = (key, payloadBuff, magicHash) =>
Metadata.sign(key, Metadata.message(payloadBuff, magicHash))`. -/
def computeSignature (key : Nat) (payloadBuff : Bytes) (magicHash : Option Bytes) : Bytes :=
  sign key (message payloadBuff magicHash)

/-- `checkStatus` inside `Metadata.request` (lines 44–52): 2xx parses the
JSON body, a 404 on a GET resolves to `null`, anything else rejects with
the response text. -/
def checkStatus (method : String) (response : HttpResponse) : Except JSError (Option ServerResponse) :=
  if 200 ≤ response.status ∧ response.status < 300 then
    Except.ok response.bodyJson
  else if method = "GET" ∧ response.status = 404 then
    Except.ok none
  else
    Except.error (JSError.serverError response.bodyText)

/-- `Metadata.request` (lines 31–56): the network round-trip, parameterised
by its outcome — either the `fetch` promise rejects (`handleNetworkError`
maps it to `METADATA_CONNECT_ERROR`) or a response arrives and goes
through `checkStatus`. -/
def request (method : String) (outcome : Except Unit HttpResponse) : Except JSError (Option ServerResponse) :=
  match outcome with
  | Except.error _ => Except.error JSError.connectError
  | Except.ok response => checkStatus method response

/-- `Metadata.verifyResponse` (lines 102–111): `null` passes through;
otherwise decode the signature/payload/prev_magic_hash fields, verify the
signature over the recomputed linkage message (throwing
`METADATA_SIGNATURE_VERIFICATION_ERROR` when verification returns false),
and attach the recomputed magic hash.  A missing payload or signature
makes the underlying primitives throw a `TypeError` on `undefined`. -/
def verifyResponse (address : Nat) (res : Option ServerResponse) :
    Except JSError (Option VerifiedResponse) :=
  match res with
  | none => Except.ok none
  | some r =>
    match r.payload.map B64ToBuffer, r.signature.map B64ToBuffer with
    | some pB, some sB =>
      let mB := r.prev_magic_hash.map HexToBuffer
      if verify address sB (message pB mB) then
        Except.ok (some { toServerResponse := r, compute_new_magic_hash := magic pB mB })
      else
        Except.error JSError.signatureVerificationError
    | _, _ => Except.error JSError.typeError

/-- `Metadata.extractResponse` (lines 113–122): `null` passes through;
with an encryption key, `JSON.parse ∘ decrypt key ∘ payload`; without,
`JSON.parse ∘ BufferToString ∘ B64ToBuffer ∘ payload`.  Throws of
`decrypt`/`JSON.parse` surface as errors; a missing payload makes the
pipeline throw a `TypeError` on `undefined`. -/
def extractResponse (encKey : Option Nat) (res : Option ServerResponse) :
    Except JSError (Option JSValue) :=
  match res with
  | none => Except.ok none
  | some r =>
    match r.payload with
    | none => Except.error JSError.typeError
    | some p =>
      match encKey with
      | some k =>
        match decrypt k p with
        | none => Except.error JSError.decodeError
        | some plain =>
          match jsonParse plain with
          | none => Except.error JSError.decodeError
          | some v => Except.ok (some v)
      | none =>
        match jsonParse (BufferToString (B64ToBuffer p)) with
        | none => Except.error JSError.decodeError
        | some v => Except.ok (some v)

/-- `Metadata.toImmutable = R.compose(Object.freeze, JSON.parse, JSON.stringify)`
at the level of document contents (`JSON.parse` of a serialization never
throws, so the `none` branch is unreachable; `Object.freeze` does not
change contents — its effect on mutability is studied separately in the
`Freeze` model below). -/
def toImmutable (v : JSValue) : JSValue :=
  match jsonParse (Str0.json v) with
  | some w => w
  | none => v

/-- The `Metadata` constructor (lines 11–22): `typeId || -1` stores `-1`
for an absent, `null`, or `0` argument; the remaining fields are the
address and key material, a `null` magic hash and an `undefined` value. -/
def construct (ecPair : Nat) (encKeyBuffer : Option Nat) (typeId : Option Int) : MetadataState :=
  { VERSION := 1
    typeId := match typeId with
      | none => -1
      | some t => if t = 0 then -1 else t
    magicHash := none
    address := getAddress ecPair
    signKey := ecPair
    encKeyBuffer := encKeyBuffer
    value := none }

/-- `get existsOnServer () { return Boolean(this._magicHash); }` (lines 24–26). -/
def existsOnServer (st : MetadataState) : Bool := st.magicHash.isSome

/-- Decidable equality for promise outcomes. -/
instance {ε α : Type} [DecidableEq ε] [DecidableEq α] : DecidableEq (Except ε α) := fun x y =>
  match x, y with
  | Except.ok a, Except.ok b =>
    if h : a = b then isTrue (by rw [h]) else isFalse (by simp [h])
  | Except.error a, Except.error b =>
    if h : a = b then isTrue (by rw [h]) else isFalse (by simp [h])
  | Except.ok _, Except.error _ => isFalse (by simp)
  | Except.error _, Except.ok _ => isFalse (by simp)

/-- The outcome of one queued operation: the record state after it
settles, the value its promise resolves with (or the error it rejects
with), and the PUT envelopes it sent, in order. -/
structure StepResult where
  state : MetadataState
  result : Except JSError (Option JSValue)
  writes : List Envelope
deriving DecidableEq

/-- The payload-encoding pipeline inside `create` (lines 130–132): with an
encryption key, `B64ToBuffer ∘ encrypt key ∘ JSON.stringify`; without,
`StringToBuffer ∘ JSON.stringify`. -/
def encPayload (encKeyBuffer : Option Nat) (payload : JSValue) : Bytes :=
  match encKeyBuffer with
  | some k => B64ToBuffer (encrypt k (Str0.json payload))
  | none => StringToBuffer (Str0.json payload)

/-- `Metadata.prototype.create` (lines 126–149), as the state transition of
the thunk it enqueues, parameterised by the PUT round-trip's outcome: the
envelope is always built and sent from the in-memory `_magicHash` held
when the thunk runs; only a fulfilled PUT mutates `_value` and
`_magicHash`, a rejected PUT leaves the state unchanged and propagates
the rejection. -/
def create (st : MetadataState) (payload : JSValue) (putOutcome : Except Unit HttpResponse) :
    StepResult :=
  let payload := toImmutable payload
  let encPayloadBuffer := encPayload st.encKeyBuffer payload
  let signatureBuffer := computeSignature st.signKey encPayloadBuffer st.magicHash
  let body : Envelope :=
    { version := st.VERSION
      payload := BufferToB64 encPayloadBuffer
      signature := BufferToB64 signatureBuffer
      prev_magic_hash := st.magicHash.map (fun h => Str0.hex h)
      type_id := st.typeId }
  match request "PUT" putOutcome with
  | Except.ok _ =>
    { state := { st with value := some payload
                         magicHash := some (magic encPayloadBuffer st.magicHash) }
      result := Except.ok (some payload)
      writes := [body] }
  | Except.error e =>
    { state := st, result := Except.error e, writes := [body] }

/-- `Metadata.prototype.update` (lines 151–157): when
`JSON.stringify(payload) === JSON.stringify(this._value)` the queued thunk
resolves with the frozen payload without touching the network or the
state; otherwise it delegates to `create`. -/
def update (st : MetadataState) (payload : JSValue) (putOutcome : Except Unit HttpResponse) :
    StepResult :=
  if st.value.map Str0.json = some (Str0.json payload) then
    { state := st, result := Except.ok (some (toImmutable payload)), writes := [] }
  else
    create st payload putOutcome

/-- `Metadata.prototype.fetch` (lines 159–178), as the state transition of
the thunk it enqueues, parameterised by the GET round-trip's outcome:
`GET → verifyResponse → saveMagicHash → extractResponse → saveValue`,
with every rejection along the pipeline normalised by the final `catch`
to `METADATA_FETCH_FAILED`.  Note `saveMagicHash` runs before
`extractResponse`: a decode failure still leaves the magic hash advanced. -/
def fetch (st : MetadataState) (getOutcome : Except Unit HttpResponse) : StepResult :=
  match request "GET" getOutcome with
  | Except.error _ => { state := st, result := Except.error JSError.fetchFailed, writes := [] }
  | Except.ok res =>
    match verifyResponse st.address res with
    | Except.error _ => { state := st, result := Except.error JSError.fetchFailed, writes := [] }
    | Except.ok vres =>
      let st1 := match vres with
        | none => st
        | some vr => { st with magicHash := some vr.compute_new_magic_hash }
      match extractResponse st.encKeyBuffer (vres.map (fun vr => vr.toServerResponse)) with
      | Except.error _ =>
        { state := st1, result := Except.error JSError.fetchFailed, writes := [] }
      | Except.ok none => { state := st1, result := Except.ok none, writes := [] }
      | Except.ok (some v) =>
        { state := { st1 with value := some (toImmutable v) }
          result := Except.ok (some v)
          writes := [] }

/-- One public operation on a record, together with the outcome of the
network round-trip it will perform when its turn in the queue comes. -/
inductive Op where
  | createOp : JSValue → Except Unit HttpResponse → Op
  | updateOp : JSValue → Except Unit HttpResponse → Op
  | fetchOp : Except Unit HttpResponse → Op
deriving DecidableEq

/-- Dispatch one dequeued operation. -/
def runOp (st : MetadataState) : Op → StepResult
  | Metadata.Op.createOp v o => create st v o
  | Op.updateOp v o => update st v o
  | Op.fetchOp o => fetch st o

/-- The cumulative outcome of a sequence of operations on one record:
final state, all PUT envelopes in the order they were sent, and each
operation's settled result in call order. -/
structure TraceResult where
  state : MetadataState
  writes : List Envelope
  results : List (Except JSError (Option JSValue))
deriving DecidableEq

/-- `Metadata.prototype.next` (lines 180–184) chains every operation onto
`this._sequence`, and re-arms the chain through `then(noop, noop)`, so
queued thunks run strictly one at a time in call order — each thunk sees
the state left by the previous thunk's settlement, whether it fulfilled
or rejected, and a rejection does not stop later operations.  `runOps` is
that drain: it executes operations enqueued back-to-back (without
awaiting each other) in FIFO order, threading the record state. -/
def runOps (st : MetadataState) : List Op → TraceResult
  | [] => { state := st, writes := [], results := [] }
  | op :: rest =>
    let step := runOp st op
    let tail := runOps step.state rest
    { state := tail.state
      writes := step.writes ++ tail.writes
      results := step.result :: tail.results }

end Metadata

/-- The linkage message as §4.3 of the spec words it: "the message is
`hash(payload) ++ priorHash` — i.e., the current payload's hash is
prepended to the previous linkage hash, then base64-encoded."  Stated
from the spec's words for comparison against `Metadata.message`. -/
def messageSpec (payload : Bytes) (priorHash : Bytes) : Str0 :=
  Str0.b64 (Bytes.cat (Bytes.sha payload) priorHash)

namespace Freeze

/-!
Mutability model for `Metadata.toImmutable` (line 124):
`R.compose(Object.freeze, JSON.parse, JSON.stringify)`.  Values carry the
`[[Frozen]]` flag of every object node; `JSON.parse` always builds fresh,
unfrozen objects, and `Object.freeze` sets the flag of the single object
it is applied to — it does not recurse.
-/

mutual
/-- A JS runtime value: an atomic JSON leaf, or an object node carrying
its `[[Frozen]]` flag and its ordered properties. -/
inductive JVal where
  | prim : Int → JVal
  | objNode : Bool → JProps → JVal
deriving DecidableEq

inductive JProps where
  | nil : JProps
  | cons : String → JVal → JProps → JProps
deriving DecidableEq
end

mutual
/-- `JSON.parse(JSON.stringify(v))`: a structurally identical copy in
which every object node is freshly allocated, hence unfrozen. -/
def stringifyClone : JVal → JVal
  | JVal.prim n => JVal.prim n
  | JVal.objNode _ ps => JVal.objNode false (stringifyCloneProps ps)

def stringifyCloneProps : JProps → JProps
  | JProps.nil => JProps.nil
  | JProps.cons k v rest => JProps.cons k (stringifyClone v) (stringifyCloneProps rest)
end

/-- `Object.freeze(v)`: sets the `[[Frozen]]` flag of `v` itself when `v`
is an object, and returns primitives unchanged (they are vacuously
frozen).  It does not descend into properties. -/
def objectFreeze : JVal → JVal
  | JVal.prim n => JVal.prim n
  | JVal.objNode _ ps => JVal.objNode true ps

/-- `Metadata.toImmutable` on runtime values:
`Object.freeze(JSON.parse(JSON.stringify(v)))`. -/
def toImmutable (v : JVal) : JVal := objectFreeze (stringifyClone v)

/-- Whether the value's own top-level fields are protected from mutation
(`Object.isFrozen`; primitives are vacuously frozen). -/
def topFrozen : JVal → Bool
  | JVal.prim _ => true
  | JVal.objNode frozen _ => frozen

mutual
/-- Every object node at every nesting depth is frozen — the property the
spec calls a "deep-immutable snapshot". -/
def deepFrozen : JVal → Bool
  | JVal.prim _ => true
  | JVal.objNode frozen ps => frozen && deepFrozenProps ps

def deepFrozenProps : JProps → Bool
  | JProps.nil => true
  | JProps.cons _ v rest => deepFrozen v && deepFrozenProps rest
end

/-- Property lookup `v[k]`. -/
def getProp : JProps → String → Option JVal
  | JProps.nil, _ => none
  | JProps.cons k v rest, key => if k = key then some v else getProp rest key

/-- Replace the binding of `key` (first occurrence) by `w`. -/
def putProp : JProps → String → JVal → JProps
  | JProps.nil, _, _ => JProps.nil
  | JProps.cons k v rest, key, w =>
    if k = key then JProps.cons k w rest else JProps.cons k v (putProp rest key w)

/-- The assignment `v.path₁.path₂...key = w`: navigates the path by
property reads (reads are always allowed), then writes the final property.
The write succeeds iff the object node that owns the property is not
frozen — the flags of the nodes traversed on the way do not protect it.
Returns the value as observed after the assignment, or `none` when the
assignment did not change anything (frozen target, missing property or a
primitive on the path). -/
def setPath (v : JVal) (path : List String) (key : String) (w : JVal) : Option JVal :=
  match path, v with
  | [], JVal.prim _ => none
  | [], JVal.objNode frozen ps =>
    if frozen then none
    else match getProp ps key with
      | none => none
      | some _ => some (JVal.objNode frozen (putProp ps key w))
  | _ :: _, JVal.prim _ => none
  | k :: rest, JVal.objNode frozen ps =>
    match getProp ps k with
    | none => none
    | some child =>
      match setPath child rest key w with
      | none => none
      | some child' => some (JVal.objNode frozen (putProp ps k child'))

mutual
/-- Content of a value with every `[[Frozen]]` flag erased, for comparing
snapshots up to mutability state. -/
def erase : JVal → JVal
  | JVal.prim n => JVal.prim n
  | JVal.objNode _ ps => JVal.objNode false (eraseProps ps)

def eraseProps : JProps → JProps
  | JProps.nil => JProps.nil
  | JProps.cons k v rest => JProps.cons k (erase v) (eraseProps rest)
end

end Freeze

/-- The envelope `Metadata.prototype.create` builds (lines 134–140), as a
standalone function of the state the thunk runs in, for use in
statements about `create`'s wire traffic. -/
def Metadata.createEnvelope (st : MetadataState) (payload : JSValue) : Envelope :=
  { version := st.VERSION
    payload := Metadata.BufferToB64 (Metadata.encPayload st.encKeyBuffer (Metadata.toImmutable payload))
    signature := Metadata.BufferToB64
      (Metadata.computeSignature st.signKey
        (Metadata.encPayload st.encKeyBuffer (Metadata.toImmutable payload)) st.magicHash)
    prev_magic_hash := st.magicHash.map (fun h => Str0.hex h)
    type_id := st.typeId }

/-- Fixture: a fresh record built from key pair 7, no encryption key, no
typeId argument. -/
def st0 : MetadataState := Metadata.construct 7 none none

/-- Fixture: `st0` after its value has been set to the document `1`. -/
def stVal : MetadataState := { st0 with value := some (JSValue.num 1) }

/-- Fixture: a 200 response with an empty body. -/
def ok200 : HttpResponse := { status := 200, bodyJson := none, bodyText := "" }

/-- Fixture: a 404 response. -/
def resp404 : HttpResponse := { status := 404, bodyJson := none, bodyText := "Not Found" }

/-- Fixture: a 500 response. -/
def resp500 : HttpResponse := { status := 500, bodyJson := none, bodyText := "boom" }

/-- Fixture: a GET response correctly signed by key pair 7 (the key of
`st0`) over the linkage message of its payload with no prior hash, whose
payload bytes are the UTF-8 of a string that is not valid JSON — so
signature verification succeeds but decoding fails. -/
def badPayloadResp : ServerResponse :=
  { payload := some (Str0.b64 (Bytes.utf8 (Str0.raw "x")))
    signature := some (Str0.b64 (Bytes.signed 7 (Str0.b64 (Bytes.utf8 (Str0.raw "x")))))
    prev_magic_hash := none }

/-- Fixture: a GET response signed by key pair 8 — the wrong key for
`st0`'s address 7 — so signature verification fails. -/
def badSigResp : ServerResponse :=
  { payload := some (Str0.b64 (Bytes.utf8 (Str0.json (JSValue.num 1))))
    signature := some (Str0.b64 (Bytes.signed 8 (Str0.b64 (Bytes.utf8 (Str0.json (JSValue.num 1))))))
    prev_magic_hash := none }

/-- Fixture: the nested document `{a: {b: 1}}` with all nodes unfrozen. -/
def vNested : Freeze.JVal :=
  Freeze.JVal.objNode false
    (Freeze.JProps.cons "a"
      (Freeze.JVal.objNode false
        (Freeze.JProps.cons "b" (Freeze.JVal.prim 1) Freeze.JProps.nil))
      Freeze.JProps.nil)

/-- Fixture: what `toImmutable vNested` becomes after the assignment
`snapshot.a.b = 2` succeeds: the top node is frozen, the inner node is
not, and the inner field now reads `2`. -/
def vNestedMutated : Freeze.JVal :=
  Freeze.JVal.objNode true
    (Freeze.JProps.cons "a"
      (Freeze.JVal.objNode false
        (Freeze.JProps.cons "b" (Freeze.JVal.prim 2) Freeze.JProps.nil))
      Freeze.JProps.nil)

/-! ## Helper lemmas -/

/-- `JSON.parse ∘ JSON.stringify` is the identity on document contents, so
`toImmutable` returns its argument's content unchanged. -/
theorem toImmutable_id (v : JSValue) : Metadata.toImmutable v = v := rfl

/-- The magic hash of a payload against a prior hash strictly contains
that prior hash, so it can never equal it: every successful write moves
the chain hash. -/
theorem magic_ne_prev (p b : Bytes) : Metadata.magic p (some b) ≠ b := by
  intro h
  have hlt : sizeOf b < sizeOf (Metadata.magic p (some b)) := by
    simp [Metadata.magic, Metadata.message]
    omega
  rw [h] at hlt
  omega

/-- Evaluation of `create` when the PUT round-trip fulfills. -/
theorem create_ok (st : MetadataState) (v : JSValue) (o : Except Unit HttpResponse)
    (r : Option ServerResponse) (h : Metadata.request "PUT" o = Except.ok r) :
    Metadata.create st v o =
      { state := { st with
          value := some v
          magicHash := some (Metadata.magic (Metadata.encPayload st.encKeyBuffer v) st.magicHash) }
        result := Except.ok (some v)
        writes := [Metadata.createEnvelope st v] } := by
  unfold Metadata.create
  rw [h]
  rfl

/-- Evaluation of `create` when the PUT round-trip rejects. -/
theorem create_err (st : MetadataState) (v : JSValue) (o : Except Unit HttpResponse)
    (e : JSError) (h : Metadata.request "PUT" o = Except.error e) :
    Metadata.create st v o =
      { state := st, result := Except.error e, writes := [Metadata.createEnvelope st v] } := by
  unfold Metadata.create
  rw [h]
  rfl

/-- `create` sends exactly one PUT envelope, built from the state the
dequeued thunk runs in, whatever the round-trip's outcome. -/
theorem create_writes (st : MetadataState) (v : JSValue) (o : Except Unit HttpResponse) :
    (Metadata.create st v o).writes = [Metadata.createEnvelope st v] := by
  unfold Metadata.create
  cases Metadata.request "PUT" o <;> rfl

/-- Erasing frozen flags commutes past `Object.freeze`. -/
theorem erase_objectFreeze (v : Freeze.JVal) :
    Freeze.erase (Freeze.objectFreeze v) = Freeze.erase v := by
  cases v <;> rfl

mutual
/-- A stringify-clone carries no frozen flags, so erasing them is the
identity on it. -/
theorem erase_stringifyClone : ∀ v : Freeze.JVal,
    Freeze.erase (Freeze.stringifyClone v) = Freeze.stringifyClone v
  | Freeze.JVal.prim _ => rfl
  | Freeze.JVal.objNode _ ps => by
    simp [Freeze.stringifyClone, Freeze.erase, eraseProps_stringifyCloneProps ps]

theorem eraseProps_stringifyCloneProps : ∀ ps : Freeze.JProps,
    Freeze.eraseProps (Freeze.stringifyCloneProps ps) = Freeze.stringifyCloneProps ps
  | Freeze.JProps.nil => rfl
  | Freeze.JProps.cons _ v rest => by
    simp [Freeze.stringifyCloneProps, Freeze.eraseProps, erase_stringifyClone v,
      eraseProps_stringifyCloneProps rest]
end

/-! ## Claims -/

/-- C1 (counterexample): the claim says the linkage message for payload
`p` and present prior hash `h` is base64 of `hash(p) ++ h`; the code
(lines 74–77) concatenates the other way round, prior hash first.  At the
concrete payload `"p"` and prior hash `sha256("q")` the two differ. -/
theorem C1_counterexample :
    Metadata.message (Bytes.utf8 (Str0.raw "p")) (some (Bytes.sha (Bytes.utf8 (Str0.raw "q"))))
      ≠ messageSpec (Bytes.utf8 (Str0.raw "p")) (Bytes.sha (Bytes.utf8 (Str0.raw "q"))) := by
  decide

/-- C1 (amended): with a present prior hash `h`, the linkage message is
the base64 encoding of `h ++ hash(p)` — the previous linkage hash
followed by the SHA-256 of the current payload — which differs from the
claimed `hash(p) ++ h` whenever `h ≠ hash(p)`; with an absent prior hash
the message is the base64 encoding of the payload itself. -/
theorem C1_message_order (p h : Bytes) :
    Metadata.message p (some h) = Str0.b64 (Bytes.cat h (Bytes.sha p)) ∧
    Metadata.message p none = Str0.b64 p ∧
    (h ≠ Bytes.sha p → Metadata.message p (some h) ≠ messageSpec p h) := by
  refine ⟨rfl, rfl, fun hne heq => ?_⟩
  simp only [Metadata.message, messageSpec, Str0.b64.injEq, Bytes.cat.injEq] at heq
  exact hne heq.1

/-- C1 witness: the amended statement at payload `"p"` and prior hash
`"h"`. -/
theorem C1_message_order_witness :
    Metadata.message (Bytes.utf8 (Str0.raw "p")) (some (Bytes.utf8 (Str0.raw "h")))
      = Str0.b64 (Bytes.cat (Bytes.utf8 (Str0.raw "h")) (Bytes.sha (Bytes.utf8 (Str0.raw "p")))) ∧
    Metadata.message (Bytes.utf8 (Str0.raw "p")) none = Str0.b64 (Bytes.utf8 (Str0.raw "p")) ∧
    Metadata.message (Bytes.utf8 (Str0.raw "p")) (some (Bytes.utf8 (Str0.raw "h")))
      ≠ messageSpec (Bytes.utf8 (Str0.raw "p")) (Bytes.utf8 (Str0.raw "h")) := by
  obtain ⟨h1, h2, h3⟩ :=
    C1_message_order (Bytes.utf8 (Str0.raw "p")) (Bytes.utf8 (Str0.raw "h"))
  exact ⟨h1, h2, h3 (by decide)⟩

/-- C10: the constructor (line 16, `this._typeId = typeId || -1`) stores
`-1` when the `typeId` argument is absent, `null`, or `0`; no record
built by the constructor ever carries typeId `0`, although the comments
at lines 189–194 document `0` as a reserved payload type. -/
theorem C10_constructor_typeId (ecPair : Nat) (encKey : Option Nat) :
    (Metadata.construct ecPair encKey none).typeId = -1 ∧
    (Metadata.construct ecPair encKey (some 0)).typeId = -1 ∧
    ∀ t : Option Int, (Metadata.construct ecPair encKey t).typeId ≠ 0 := by
  refine ⟨rfl, rfl, fun t => ?_⟩
  cases t with
  | none => simp [Metadata.construct]
  | some t =>
    by_cases h : t = 0 <;> simp [Metadata.construct, h]

/-- C4: a successful `create(v)` sets `value` to the frozen snapshot of
`v` and `chainHash` to the linkage hash of the encoded payload against
the in-memory prior hash held before the write; a rejected PUT leaves
both unchanged and propagates the rejection to `create`'s caller. -/
theorem C4_create_success_failure (st : MetadataState) (v : JSValue)
    (o : Except Unit HttpResponse) :
    (∀ r : Option ServerResponse, Metadata.request "PUT" o = Except.ok r →
      (Metadata.create st v o).state =
        { st with
            value := some (Metadata.toImmutable v)
            magicHash := some (Metadata.magic (Metadata.encPayload st.encKeyBuffer v) st.magicHash) } ∧
      (Metadata.create st v o).result = Except.ok (some (Metadata.toImmutable v))) ∧
    (∀ e : JSError, Metadata.request "PUT" o = Except.error e →
      (Metadata.create st v o).state = st ∧
      (Metadata.create st v o).result = Except.error e) := by
  constructor
  · intro r h
    rw [create_ok st v o r h]
    exact ⟨rfl, rfl⟩
  · intro e h
    rw [create_err st v o e h]
    exact ⟨rfl, rfl⟩

/-- C4 witness: on the fresh record `st0`, creating the document `1`
against a 200 PUT advances value and chain hash, and against a 500 PUT
changes nothing and rejects with the server error. -/
theorem C4_create_witness :
    (Metadata.create st0 (JSValue.num 1) (Except.ok ok200)).state =
      { st0 with
          value := some (JSValue.num 1)
          magicHash := some (Metadata.magic (Metadata.encPayload st0.encKeyBuffer (JSValue.num 1)) st0.magicHash) } ∧
    (Metadata.create st0 (JSValue.num 1) (Except.ok ok200)).result = Except.ok (some (JSValue.num 1)) ∧
    (Metadata.create st0 (JSValue.num 1) (Except.ok resp500)).state = st0 ∧
    (Metadata.create st0 (JSValue.num 1) (Except.ok resp500)).result =
      Except.error (JSError.serverError "boom") := by
  obtain ⟨hok1, hok2⟩ :=
    (C4_create_success_failure st0 (JSValue.num 1) (Except.ok ok200)).1 none (by decide)
  obtain ⟨herr1, herr2⟩ :=
    (C4_create_success_failure st0 (JSValue.num 1) (Except.ok resp500)).2
      (JSError.serverError "boom") (by decide)
  exact ⟨hok1, hok2, herr1, herr2⟩

/-- C2: two `create` calls issued back-to-back without awaiting the first
drain through the promise queue as exactly two sequential PUT writes; the
second envelope's `prev_magic_hash` is the hex of the chain hash the
first write's completion installed, and (since a write always moves the
chain hash) it never equals the prior hash the first write was computed
against. -/
theorem C2_serialized_creates (st : MetadataState) (v1 v2 : JSValue)
    (o1 o2 : Except Unit HttpResponse) (r : Option ServerResponse)
    (h1 : Metadata.request "PUT" o1 = Except.ok r) :
    (Metadata.runOps st [Metadata.Op.createOp v1 o1, Metadata.Op.createOp v2 o2]).writes.length = 2 ∧
    (Metadata.create st v1 o1).state.magicHash =
      some (Metadata.magic (Metadata.encPayload st.encKeyBuffer v1) st.magicHash) ∧
    (Metadata.runOps st [Metadata.Op.createOp v1 o1, Metadata.Op.createOp v2 o2]).writes.map
        Envelope.prev_magic_hash =
      [st.magicHash.map (fun h => Str0.hex h),
       some (Str0.hex (Metadata.magic (Metadata.encPayload st.encKeyBuffer v1) st.magicHash))] ∧
    some (Str0.hex (Metadata.magic (Metadata.encPayload st.encKeyBuffer v1) st.magicHash)) ≠
      st.magicHash.map (fun h => Str0.hex h) := by
  have hc1 := create_ok st v1 o1 r h1
  refine ⟨?_, by rw [hc1], ?_, ?_⟩
  · simp [Metadata.runOps, Metadata.runOp, create_writes]
  · simp [Metadata.runOps, Metadata.runOp, create_writes, hc1, Metadata.createEnvelope]
  · cases hst : st.magicHash with
    | none => simp
    | some b =>
      simp only [Option.map_some', ne_eq, Option.some.injEq, Str0.hex.injEq]
      exact magic_ne_prev _ b

/-- C2 witness: the statement on the fresh record `st0` with documents
`1` then `2`, both PUTs answered 200. -/
theorem C2_serialized_creates_witness :
    (Metadata.runOps st0 [Metadata.Op.createOp (JSValue.num 1) (Except.ok ok200),
        Metadata.Op.createOp (JSValue.num 2) (Except.ok ok200)]).writes.length = 2 ∧
    (Metadata.create st0 (JSValue.num 1) (Except.ok ok200)).state.magicHash =
      some (Metadata.magic (Metadata.encPayload st0.encKeyBuffer (JSValue.num 1)) st0.magicHash) ∧
    (Metadata.runOps st0 [Metadata.Op.createOp (JSValue.num 1) (Except.ok ok200),
        Metadata.Op.createOp (JSValue.num 2) (Except.ok ok200)]).writes.map
        Envelope.prev_magic_hash =
      [st0.magicHash.map (fun h => Str0.hex h),
       some (Str0.hex (Metadata.magic (Metadata.encPayload st0.encKeyBuffer (JSValue.num 1)) st0.magicHash))] ∧
    some (Str0.hex (Metadata.magic (Metadata.encPayload st0.encKeyBuffer (JSValue.num 1)) st0.magicHash)) ≠
      st0.magicHash.map (fun h => Str0.hex h) :=
  C2_serialized_creates st0 (JSValue.num 1) (JSValue.num 2)
    (Except.ok ok200) (Except.ok ok200) none (by decide)

/-- C3 (counterexample): the claim says a failed operation leaves the
successor observing the pre-operation `chainHash` and `value`.  On the
fresh record `st0`, a fetch whose response is correctly signed but whose
payload does not decode fails with `METADATA_FETCH_FAILED`, yet
`saveMagicHash` has already advanced the chain hash while `value` is
untouched — exactly the partially-applied state the claim rules out. -/
theorem C3_counterexample :
    (Metadata.fetch st0
      (Except.ok { status := 200, bodyJson := some badPayloadResp, bodyText := "" })).result
      = Except.error JSError.fetchFailed ∧
    (Metadata.fetch st0
      (Except.ok { status := 200, bodyJson := some badPayloadResp, bodyText := "" })).state.magicHash
      ≠ st0.magicHash ∧
    (Metadata.fetch st0
      (Except.ok { status := 200, bodyJson := some badPayloadResp, bodyText := "" })).state.value
      = st0.value := by
  decide

/-- C3 (amended): a failed operation always leaves `value` at its
pre-operation state; a failed `create` or `update` leaves the whole
record unchanged; a failed `fetch` leaves `chainHash` unchanged except in
one case — the response verified (so `saveMagicHash` ran) and the
subsequent decode failed — where `chainHash` has advanced to the
recomputed linkage hash of the verified response while `value` has not
moved. -/
theorem C3_failure_isolation (st : MetadataState) (op : Metadata.Op) (e : JSError)
    (h : (Metadata.runOp st op).result = Except.error e) :
    (Metadata.runOp st op).state.value = st.value ∧
    ((∀ o, op ≠ Metadata.Op.fetchOp o) → (Metadata.runOp st op).state = st) ∧
    ((Metadata.runOp st op).state.magicHash = st.magicHash ∨
      ∃ o res vr e2, op = Metadata.Op.fetchOp o ∧
        Metadata.request "GET" o = Except.ok res ∧
        Metadata.verifyResponse st.address res = Except.ok (some vr) ∧
        Metadata.extractResponse st.encKeyBuffer (some vr.toServerResponse) = Except.error e2 ∧
        (Metadata.runOp st op).state.magicHash = some vr.compute_new_magic_hash) := by
  cases op with
  | createOp v o =>
    cases hreq : Metadata.request "PUT" o with
    | ok r =>
      rw [Metadata.runOp, create_ok st v o r hreq] at h
      exact absurd h (by simp)
    | error e1 =>
      rw [Metadata.runOp, create_err st v o e1 hreq]
      exact ⟨rfl, fun _ => rfl, Or.inl rfl⟩
  | updateOp v o =>
    by_cases heq : st.value.map Str0.json = some (Str0.json v)
    · rw [Metadata.runOp, Metadata.update, if_pos heq] at h
      exact absurd h (by simp)
    · cases hreq : Metadata.request "PUT" o with
      | ok r =>
        rw [Metadata.runOp, Metadata.update, if_neg heq, create_ok st v o r hreq] at h
        exact absurd h (by simp)
      | error e1 =>
        rw [Metadata.runOp, Metadata.update, if_neg heq, create_err st v o e1 hreq]
        exact ⟨rfl, fun _ => rfl, Or.inl rfl⟩
  | fetchOp o =>
    cases hreq : Metadata.request "GET" o with
    | error e1 =>
      simp only [Metadata.runOp, Metadata.fetch, hreq]
      refine ⟨?_, fun hall => absurd rfl (hall o), Or.inl ?_⟩ <;> trivial
    | ok res =>
      cases hver : Metadata.verifyResponse st.address res with
      | error e1 =>
        simp only [Metadata.runOp, Metadata.fetch, hreq, hver]
        refine ⟨?_, fun hall => absurd rfl (hall o), Or.inl ?_⟩ <;> trivial
      | ok vres =>
        cases vres with
        | none =>
          simp only [Metadata.runOp, Metadata.fetch, hreq, hver, Option.map_none'] at h
          simp [Metadata.extractResponse] at h
        | some vr =>
          cases hext : Metadata.extractResponse st.encKeyBuffer (some vr.toServerResponse) with
          | error e2 =>
            simp only [Metadata.runOp, Metadata.fetch, hreq, hver, Option.map_some', hext]
            refine ⟨?_, fun hall => absurd rfl (hall o),
              Or.inr ⟨o, res, vr, e2, rfl, hreq, hver, hext, ?_⟩⟩ <;> trivial
          | ok w =>
            cases w with
            | none =>
              simp only [Metadata.runOp, Metadata.fetch, hreq, hver, Option.map_some', hext] at h
              exact absurd h (by simp)
            | some v =>
              simp only [Metadata.runOp, Metadata.fetch, hreq, hver, Option.map_some', hext] at h
              exact absurd h (by simp)

/-- C3 witness: the amended statement at a `create` of document `1` on
`st0` whose PUT is answered 500. -/
theorem C3_failure_isolation_witness :
    (Metadata.runOp st0 (Metadata.Op.createOp (JSValue.num 1) (Except.ok resp500))).state.value
      = st0.value ∧
    ((∀ o, Metadata.Op.createOp (JSValue.num 1) (Except.ok resp500) ≠ Metadata.Op.fetchOp o) →
      (Metadata.runOp st0 (Metadata.Op.createOp (JSValue.num 1) (Except.ok resp500))).state = st0) ∧
    ((Metadata.runOp st0 (Metadata.Op.createOp (JSValue.num 1) (Except.ok resp500))).state.magicHash
        = st0.magicHash ∨
      ∃ o res vr e2,
        Metadata.Op.createOp (JSValue.num 1) (Except.ok resp500) = Metadata.Op.fetchOp o ∧
        Metadata.request "GET" o = Except.ok res ∧
        Metadata.verifyResponse st0.address res = Except.ok (some vr) ∧
        Metadata.extractResponse st0.encKeyBuffer (some vr.toServerResponse) = Except.error e2 ∧
        (Metadata.runOp st0 (Metadata.Op.createOp (JSValue.num 1) (Except.ok resp500))).state.magicHash
          = some vr.compute_new_magic_hash) :=
  C3_failure_isolation st0 (Metadata.Op.createOp (JSValue.num 1) (Except.ok resp500))
    (JSError.serverError "boom") (by decide)

/-- C5: a GET response whose signature does not verify against the
record's address and the recomputed linkage message makes `fetch` reject
with the uniform `METADATA_FETCH_FAILED` error and leaves the record
unchanged; and every failure anywhere in the fetch pipeline is normalised
to that single error by the final `catch`. -/
theorem C5_fetch_uniform_failure (st : MetadataState) (o : Except Unit HttpResponse)
    (r : ServerResponse) :
    (Metadata.request "GET" o = Except.ok (some r) →
      Metadata.verifyResponse st.address (some r)
        = Except.error JSError.signatureVerificationError →
      Metadata.fetch st o =
        { state := st, result := Except.error JSError.fetchFailed, writes := [] }) ∧
    (∀ e, (Metadata.fetch st o).result = Except.error e → e = JSError.fetchFailed) := by
  constructor
  · intro hget hver
    simp only [Metadata.fetch, hget, hver]
  · intro e he
    cases hreq : Metadata.request "GET" o with
    | error e1 =>
      simp only [Metadata.fetch, hreq, Except.error.injEq] at he
      exact he.symm
    | ok res =>
      cases hver : Metadata.verifyResponse st.address res with
      | error e1 =>
        simp only [Metadata.fetch, hreq, hver, Except.error.injEq] at he
        exact he.symm
      | ok vres =>
        cases vres with
        | none =>
          simp only [Metadata.fetch, hreq, hver, Option.map_none'] at he
          simp [Metadata.extractResponse] at he
        | some vr =>
          cases hext : Metadata.extractResponse st.encKeyBuffer (some vr.toServerResponse) with
          | error e2 =>
            simp only [Metadata.fetch, hreq, hver, Option.map_some', hext,
              Except.error.injEq] at he
            exact he.symm
          | ok w =>
            cases w with
            | none =>
              simp only [Metadata.fetch, hreq, hver, Option.map_some', hext] at he
              exact absurd he (by simp)
            | some v =>
              simp only [Metadata.fetch, hreq, hver, Option.map_some', hext] at he
              exact absurd he (by simp)

/-- C5 witness: on `st0`, a 200 GET whose body is signed by the wrong key
makes `fetch` reject with `METADATA_FETCH_FAILED` and leaves the record
unchanged. -/
theorem C5_fetch_uniform_failure_witness :
    Metadata.fetch st0 (Except.ok { status := 200, bodyJson := some badSigResp, bodyText := "" })
      = { state := st0, result := Except.error JSError.fetchFailed, writes := [] } :=
  (C5_fetch_uniform_failure st0
    (Except.ok { status := 200, bodyJson := some badSigResp, bodyText := "" }) badSigResp).1
    (by decide) (by decide)

/-- C6: `update(v)` with a payload whose JSON serialization equals the
current value's performs no PUT (no envelope is sent), leaves the whole
record — `chainHash` included — unchanged, still occupies one slot of the
serialization queue, and resolves with the frozen snapshot of `v`; with a
differing serialization it is exactly one `create`-equivalent write. -/
theorem C6_update_noop_or_write (st : MetadataState) (v : JSValue)
    (o : Except Unit HttpResponse) :
    (st.value.map Str0.json = some (Str0.json v) →
      Metadata.update st v o =
        { state := st, result := Except.ok (some (Metadata.toImmutable v)), writes := [] } ∧
      (∀ op2, Metadata.runOps st [Metadata.Op.updateOp v o, op2] =
        { state := (Metadata.runOp st op2).state
          writes := (Metadata.runOp st op2).writes
          results := [Except.ok (some (Metadata.toImmutable v)),
            (Metadata.runOp st op2).result] })) ∧
    (st.value.map Str0.json ≠ some (Str0.json v) →
      Metadata.update st v o = Metadata.create st v o ∧
      (Metadata.update st v o).writes = [Metadata.createEnvelope st v]) := by
  constructor
  · intro heq
    constructor
    · rw [Metadata.update, if_pos heq]
    · intro op2
      simp [Metadata.runOps, Metadata.runOp, Metadata.update, heq]
  · intro hne
    rw [Metadata.update, if_neg hne]
    exact ⟨rfl, create_writes st v o⟩

/-- C6 witness: on a record whose value is the document `1`, updating
with `1` is a no-op that resolves with the frozen value, and updating
with `2` is exactly the `create` write. -/
theorem C6_update_witness :
    Metadata.update stVal (JSValue.num 1) (Except.ok ok200)
      = { state := stVal
          result := Except.ok (some (Metadata.toImmutable (JSValue.num 1)))
          writes := [] } ∧
    Metadata.update stVal (JSValue.num 2) (Except.ok ok200)
      = Metadata.create stVal (JSValue.num 2) (Except.ok ok200) ∧
    (Metadata.update stVal (JSValue.num 2) (Except.ok ok200)).writes
      = [Metadata.createEnvelope stVal (JSValue.num 2)] := by
  have h1 := ((C6_update_noop_or_write stVal (JSValue.num 1) (Except.ok ok200)).1 (by decide)).1
  have h2 := (C6_update_noop_or_write stVal (JSValue.num 2) (Except.ok ok200)).2 (by decide)
  exact ⟨h1, h2.1, h2.2⟩

/-- C7 (counterexample): `toImmutable` is `Object.freeze` after a JSON
round-trip, and `Object.freeze` is shallow.  On the nested document
`{a: {b: 1}}` the snapshot's inner object stays unfrozen: the assignment
`snapshot.a.b = 2` succeeds and changes the observed content, and the
snapshot is not deep-frozen — refuting "no field at any nesting depth can
be mutated". -/
theorem C7_counterexample :
    Freeze.setPath (Freeze.toImmutable vNested) ["a"] "b" (Freeze.JVal.prim 2)
      = some vNestedMutated ∧
    Freeze.erase vNestedMutated ≠ Freeze.erase (Freeze.toImmutable vNested) ∧
    Freeze.deepFrozen (Freeze.toImmutable vNested) = false := by
  decide

/-- C7 (amended): the snapshot `toImmutable v` is shallow-frozen — its
top level is frozen and no direct field of it can be assigned — and its
content equals the JSON-serialization round-trip of `v`; nested objects,
however, remain unfrozen in general. -/
theorem C7_shallow_freeze (v : Freeze.JVal) :
    Freeze.topFrozen (Freeze.toImmutable v) = true ∧
    (∀ key w, Freeze.setPath (Freeze.toImmutable v) [] key w = none) ∧
    Freeze.erase (Freeze.toImmutable v) = Freeze.stringifyClone v := by
  refine ⟨?_, ?_, ?_⟩
  · cases v <;> rfl
  · intro key w
    cases v <;> simp [Freeze.toImmutable, Freeze.stringifyClone, Freeze.objectFreeze,
      Freeze.setPath]
  · rw [Freeze.toImmutable, erase_objectFreeze, erase_stringifyClone]

/-- C8: on a record that has never been written (`chainHash` null), a GET
answered 404 is mapped by `checkStatus` to an explicit `null` result, so
`fetch()` resolves with that absent result instead of rejecting, the
record is unchanged, and `existsOnServer` stays `false`. -/
theorem C8_fetch_404 (st : MetadataState) (resp : HttpResponse)
    (hNever : st.magicHash = none) (h404 : resp.status = 404) :
    Metadata.checkStatus "GET" resp = Except.ok none ∧
    Metadata.fetch st (Except.ok resp) =
      { state := st, result := Except.ok none, writes := [] } ∧
    Metadata.existsOnServer (Metadata.fetch st (Except.ok resp)).state = false := by
  have hcs : Metadata.checkStatus "GET" resp = Except.ok none := by
    rw [Metadata.checkStatus]
    rw [if_neg (by rw [h404]; omega), if_pos (by rw [h404]; exact ⟨rfl, rfl⟩)]
  have hfetch : Metadata.fetch st (Except.ok resp) =
      { state := st, result := Except.ok none, writes := [] } := by
    simp only [Metadata.fetch, Metadata.request, hcs, Metadata.verifyResponse,
      Option.map_none', Metadata.extractResponse]
  refine ⟨hcs, hfetch, ?_⟩
  rw [hfetch]
  simp [Metadata.existsOnServer, hNever]

/-- C8 witness: the statement on the fresh record `st0` and a plain 404
response. -/
theorem C8_fetch_404_witness :
    Metadata.checkStatus "GET" resp404 = Except.ok none ∧
    Metadata.fetch st0 (Except.ok resp404) =
      { state := st0, result := Except.ok none, writes := [] } ∧
    Metadata.existsOnServer (Metadata.fetch st0 (Except.ok resp404)).state = false :=
  C8_fetch_404 st0 resp404 (by decide) (by decide)

/-- C9: decoding (`extractResponse`) the wire payload produced by
`create`'s encoding pipeline (`encPayload`, rendered base64) with the
same key returns the original value, on both the encrypted and the
plaintext path; decoding an encrypted payload with a different key fails
with a decode error instead of yielding a parseable wrong value. -/
theorem C9_codec_roundtrip (v : JSValue) (k : Nat) :
    Metadata.extractResponse (some k)
        (some { payload := some (Metadata.BufferToB64 (Metadata.encPayload (some k) v))
                signature := none, prev_magic_hash := none })
      = Except.ok (some v) ∧
    Metadata.extractResponse none
        (some { payload := some (Metadata.BufferToB64 (Metadata.encPayload none v))
                signature := none, prev_magic_hash := none })
      = Except.ok (some v) ∧
    (∀ k2, k2 ≠ k →
      Metadata.extractResponse (some k2)
          (some { payload := some (Metadata.BufferToB64 (Metadata.encPayload (some k) v))
                  signature := none, prev_magic_hash := none })
        = Except.error JSError.decodeError) := by
  refine ⟨?_, ?_, ?_⟩
  · simp [Metadata.extractResponse, Metadata.encPayload, Metadata.BufferToB64,
      Metadata.B64ToBuffer, Metadata.encrypt, encryptDataWithKey, Metadata.decrypt,
      decryptDataWithKey, jsonParse]
  · simp [Metadata.extractResponse, Metadata.encPayload, Metadata.BufferToB64,
      Metadata.B64ToBuffer, Metadata.StringToBuffer, Metadata.BufferToString, jsonParse]
  · intro k2 hne
    simp [Metadata.extractResponse, Metadata.encPayload, Metadata.BufferToB64,
      Metadata.B64ToBuffer, Metadata.encrypt, encryptDataWithKey, Metadata.decrypt,
      decryptDataWithKey, Ne.symm hne]

/-- C9 witness: the round trip of the document `3` under key 1 on both
paths, and the failure of decoding it with key 2. -/
theorem C9_codec_roundtrip_witness :
    Metadata.extractResponse (some 1)
        (some { payload := some (Metadata.BufferToB64 (Metadata.encPayload (some 1) (JSValue.num 3)))
                signature := none, prev_magic_hash := none })
      = Except.ok (some (JSValue.num 3)) ∧
    Metadata.extractResponse none
        (some { payload := some (Metadata.BufferToB64 (Metadata.encPayload none (JSValue.num 3)))
                signature := none, prev_magic_hash := none })
      = Except.ok (some (JSValue.num 3)) ∧
    Metadata.extractResponse (some 2)
        (some { payload := some (Metadata.BufferToB64 (Metadata.encPayload (some 1) (JSValue.num 3)))
                signature := none, prev_magic_hash := none })
      = Except.error JSError.decodeError := by
  have h := C9_codec_roundtrip (JSValue.num 3) 1
  exact ⟨h.1, h.2.1, h.2.2 2 (by decide)⟩

/-- C7 witness: the amended statement at the nested document `{a: {b: 1}}`. -/
theorem C7_shallow_freeze_witness :
    Freeze.topFrozen (Freeze.toImmutable vNested) = true ∧
    (∀ key w, Freeze.setPath (Freeze.toImmutable vNested) [] key w = none) ∧
    Freeze.erase (Freeze.toImmutable vNested) = Freeze.stringifyClone vNested :=
  C7_shallow_freeze vNested

/-- C10 witness: the statement at key pair 7 with no encryption key,
taking `5` as the sample typeId that is not coerced. -/
theorem C10_constructor_typeId_witness :
    (Metadata.construct 7 none none).typeId = -1 ∧
    (Metadata.construct 7 none (some 0)).typeId = -1 ∧
    (Metadata.construct 7 none (some 5)).typeId ≠ 0 := by
  obtain ⟨h1, h2, h3⟩ := C10_constructor_typeId 7 none
  exact ⟨h1, h2, h3 (some 5)⟩
